import Mathlib

/-! Verification development for the styled QR synthesis engine of the
trackable_qr_code_project repository.  The definitions below are a shallow
embedding of `microservices/qr-service/app/qr_utils.py` and
`microservices/qr-service/app/shared/models.py`: pure Python functions become
Lean functions, exceptions become `Except`, the ambient clock and filesystem
become explicit parameters, and PIL image operations become a term algebra
recording exactly which operations are applied. -/

deriving instance DecidableEq for Except

namespace QRService

/-! ## String helpers.  Python's `str.startswith`, slicing and `str.lower`
are modelled over the character list of the string (semantically the same as
the core `String` operations, but structurally recursive, so that concrete
payloads evaluate inside the kernel). -/

/-- Python `s.startswith(pre)`. -/
def starts_with (s pre : String) : Bool :=
  pre.data.isPrefixOf s.data

/-- Python `s[n:]`. -/
def str_drop (s : String) (n : Nat) : String :=
  String.mk (s.data.drop n)

/-- Python `s.lower()` (ASCII letters, as used by the style names). -/
def str_toLower (s : String) : String :=
  String.mk (s.data.map Char.toLower)

/-! ## Phone normalization — qr_utils.format_phone_number (lines 139-164) -/

/-- The digit pipeline of `format_phone_number` (lines 144-157): keep only
digit characters, drop one leading `0`, drop a leading `+` (dead code after
digit filtering, kept for faithfulness), and prepend the country code `91`
when the result is exactly 10 digits and does not already start with `91`. -/
def phone_digits (phone : String) : String :=
  let p := String.mk (phone.data.filter Char.isDigit)
  let p := if starts_with p "0" then str_drop p 1 else p
  let p := if starts_with p "+" then str_drop p 1 else p
  if ¬ starts_with p "91" ∧ p.length = 10 then "91" ++ p else p

/-- `format_phone_number` (lines 139-164).  The empty string is returned
unchanged (line 141-142); otherwise the digit pipeline runs and a length
outside `[11,15]` raises `ValueError` (modelled as `Except.error`), else the
digits are returned prefixed with `+`. -/
def format_phone_number (phone : String) : Except String String :=
  if phone = "" then .ok ""
  else if (phone_digits phone).length < 11 ∨ (phone_digits phone).length > 15 then
    .error "Invalid phone number length"
  else .ok ("+" ++ phone_digits phone)

/-! ## Profile photo — qr_utils.process_profile_photo (lines 166-175) -/

/-- `process_profile_photo` (lines 166-175): both branches return the pair
`("URL", photo_data)` — the input, a plain URL or a base64 data URI alike, is
passed through verbatim. -/
def process_profile_photo (photo_data : String) : String × String :=
  if starts_with photo_data "data:image" then ("URL", photo_data)
  else ("URL", photo_data)

/-! ## Contact record — the `vcard_data` dict consumed by the encoder.
Missing dict keys default to the empty string (`dict.get(key, '')` or Python
falsiness), so every textual field is a `String` with `""` meaning absent;
the optional `address` sub-dict is an `Option`. -/

structure Address where
  street : String := ""
  city : String := ""
  state : String := ""
  zip_code : String := ""
  country : String := ""
  deriving DecidableEq, Repr

structure ContactRecord where
  first_name : String := ""
  last_name : String := ""
  email : String := ""
  mobile_number : String := ""
  work_number : String := ""
  company : String := ""
  title : String := ""
  website : String := ""
  notes : String := ""
  profile_picture : String := ""
  address : Option Address := none
  deriving DecidableEq, Repr

/-! ## Payload encoding — qr_utils.generate_vcard_content (lines 177-275).
The source builds one list of lines by successive appends; here the list is
assembled as the four fixed header lines (lines 185-190), then the optional
middle lines in source order (lines 192-265), then the `REV` timestamp and
`END:VCARD` (lines 267-270).  `datetime.utcnow().strftime(...)` is modelled
by the explicit `now` argument carrying the already-formatted timestamp. -/

/-- One optional phone line (lines 203-210): when the number is non-empty it
is normalized — a normalization failure propagates — and emitted after the
given fixed tag; an empty number contributes no line. -/
def phone_line (tag : String) (num : String) : Except String (List String) :=
  if num ≠ "" then (format_phone_number num).map (fun f => [tag ++ f])
  else .ok []

/-- The optional middle lines of the payload (lines 192-265), in source
order: photo, mobile, work, email, company, title, website, address pair,
notes.  The `try/except` around the photo (lines 193-200) is dead code since
`process_profile_photo` is total, so the photo line is emitted whenever
`profile_picture` is non-empty. -/
def vcard_optional_lines (r : ContactRecord) : Except String (List String) :=
  let photo := if r.profile_picture ≠ "" then
      ["PHOTO;VALUE=URI:" ++ (process_profile_photo r.profile_picture).2]
    else []
  let email_l := if r.email ≠ "" then ["EMAIL;TYPE=INTERNET:" ++ r.email] else []
  let org_l := if r.company ≠ "" then ["ORG:" ++ r.company] else []
  let title_l := if r.title ≠ "" then ["TITLE:" ++ r.title] else []
  let url_l := if r.website ≠ "" then ["URL:" ++ r.website] else []
  let adr_l := match r.address with
    | none => []
    | some a =>
      if a.street ≠ "" ∨ a.city ≠ "" ∨ a.state ≠ "" ∨ a.zip_code ≠ "" ∨ a.country ≠ "" then
        ["ADR;TYPE=WORK:" ++
           String.intercalate ";" ["", "", a.street, a.city, a.state, a.zip_code, a.country],
         "LABEL;TYPE=WORK:" ++
           String.intercalate ", "
             (List.filter (fun s => s ≠ "") [a.street, a.city, a.state, a.zip_code, a.country])]
      else []
  let note_l := if r.notes ≠ "" then
      ["NOTE:" ++ (r.notes.replace "\n" "\\n").replace "\r" ""]
    else []
  match phone_line "TEL;TYPE=CELL,VOICE:" r.mobile_number,
        phone_line "TEL;TYPE=WORK,VOICE:" r.work_number with
  | .error e, _ => .error e
  | .ok _, .error e => .error e
  | .ok ml, .ok wl =>
    .ok (photo ++ ml ++ wl ++ email_l ++ org_l ++ title_l ++ url_l ++ adr_l ++ note_l)

/-- All payload lines before the `REV` timestamp: the four fixed header lines
(lines 185-190) followed by the optional middle lines. -/
def vcard_body (r : ContactRecord) : Except String (List String) :=
  (vcard_optional_lines r).map (fun rest =>
    ["BEGIN:VCARD",
     "VERSION:3.0",
     "N:" ++ r.last_name ++ ";" ++ r.first_name ++ ";;;",
     "FN:" ++ r.first_name ++ " " ++ r.last_name] ++ rest)

/-- The full line list of `generate_vcard_content`: body, then `REV:` with
the formatted UTC timestamp (line 268), then `END:VCARD` (line 270). -/
def vcard_lines (r : ContactRecord) (now : String) : Except String (List String) :=
  (vcard_body r).map (fun body => body ++ ["REV:" ++ now, "END:VCARD"])

/-- `generate_vcard_content` (lines 177-275): the lines joined with CRLF
(line 272). -/
def generate_vcard_content (r : ContactRecord) (now : String) : Except String String :=
  (vcard_lines r now).map (String.intercalate "\r\n")

/-! ## Matrix encoding — generate_vcard_qr, lines 310-318.  The source
constructs `qrcode.QRCode(version=None, error_correction=<requested>, ...)`
and calls `qr.make(fit=True)`: the library selects the smallest version that
fits at the requested level and raises `DataOverflowError` when even version
40 cannot hold the payload at that level.  The requested level is never
changed.  Capacity is modelled at the decisive point, version 40 in byte
mode, with the standard ISO 18004 byte capacities used by the library;
version selection below 40 is irrelevant to the fallback question. -/

inductive ECC
  | L
  | M
  | Q
  | H
  deriving DecidableEq, Repr

/-- Version-40 byte-mode capacity per error-correction level (the `qrcode`
library's capacity table, as exercised by `qr.make(fit=True)`). -/
def byte_capacity_v40 : ECC → Nat
  | .L => 2953
  | .M => 2331
  | .Q => 1663
  | .H => 1273

inductive QRErr
  | dataOverflow
  deriving DecidableEq, Repr

/-- The matrix-encoding step of `generate_vcard_qr` (lines 310-318), reduced
to its error-correction outcome: encoding succeeds, using exactly the
requested level, iff the payload fits at that level at version 40; otherwise
the library's overflow error propagates out of the pipeline. -/
def qr_make_fit (payload_len : Nat) (ecc : ECC) : Except QRErr ECC :=
  if payload_len ≤ byte_capacity_v40 ecc then .ok ecc else .error .dataOverflow

/-- Modelled from the spec: the capacity-fallback ladder of §4.2, which is
absent from the code.  Starting at the requested level, try each weaker level
in the ladder `H > Q > M > L` in turn. -/
def ladder_from : ECC → List ECC
  | .H => [.H, .Q, .M, .L]
  | .Q => [.Q, .M, .L]
  | .M => [.M, .L]
  | .L => [.L]

/-- Modelled from the spec: one traversal of the remaining ladder — succeed
with the first level at which the payload fits, else fail. -/
def spec_try (payload_len : Nat) : List ECC → Except QRErr ECC
  | [] => .error .dataOverflow
  | e :: rest =>
    if payload_len ≤ byte_capacity_v40 e then .ok e else spec_try payload_len rest

/-- Modelled from the spec: `AdaptiveMatrixEncoder.encode` of §4.2 — succeed
with the first level in the ladder at which the payload fits, else fail with
`CapacityError` (represented by the overflow error). -/
def spec_adaptive_encode (payload_len : Nat) (requested : ECC) : Except QRErr ECC :=
  spec_try payload_len (ladder_from requested)

/-! ## PIL image operations — a term algebra recording which operations
`process_logo` (lines 101-137) and the logo branch of `generate_vcard_qr`
(lines 386-436) apply.  `Size.imageOf p` stands for `logo.size` of the image
loaded from `p`. -/

inductive Size
  | imageOf (path : String)
  deriving DecidableEq, Repr

inductive Img
  /-- `Image.open(path)` / fetched remote content (lines 105-110). -/
  | opened (path : String)
  /-- `img.convert(mode)` (line 113). -/
  | convert (mode : String) (i : Img)
  /-- `Image.new(mode, size, fill)` (lines 116-117). -/
  | new (mode : String) (size : Size) (fill : List Nat)
  /-- `ImageDraw.Draw(mask).ellipse((0,0,w,h), fill)` (line 121). -/
  | ellipseFilled (i : Img) (fill : Nat)
  /-- `img.filter(ImageFilter.GaussianBlur(radius))` (line 122). -/
  | gaussianBlur (radius : Nat) (i : Img)
  /-- `img.putalpha(mask)` (line 125). -/
  | putalpha (base : Img) (alpha : Img)
  /-- `base.paste(overlay, (x, y), mask)` (lines 128, 429). -/
  | paste (base : Img) (overlay : Img) (x : Nat) (y : Nat) (mask : Img)
  /-- `img.resize((w, h), LANCZOS)` (line 422). -/
  | resize (w : Nat) (h : Nat) (i : Img)
  deriving DecidableEq, Repr

/-- `process_logo` (lines 101-137): load the logo, convert to RGBA, build an
opaque white RGBA canvas of the logo's size, build an `L`-mode mask, fill a
full-size ellipse on it, Gaussian-blur it, set it as the white canvas's alpha
channel, and paste the logo (with itself as mask) at the origin.  The
`add_background` and `make_round` parameters appear in the signature (line
101) but are never read by the body. -/
def process_logo (logo_path : String) (add_background : Bool) (make_round : Bool) : Img :=
  let logo := Img.convert "RGBA" (Img.opened logo_path)
  let background := Img.new "RGBA" (Size.imageOf logo_path) [255, 255, 255, 255]
  let mask := Img.new "L" (Size.imageOf logo_path) [0]
  let mask := Img.gaussianBlur 1 (Img.ellipseFilled mask 255)
  let background := Img.putalpha background mask
  Img.paste background logo 0 0 logo

/-- The logo branch of `generate_vcard_qr` (lines 386-436).  `attempt`
abstracts the environment-dependent `try` block up to the paste: path
resolution over `possible_paths` (lines 390-412), `process_logo` with its
network and decode failures, and the resize (lines 414-423); it yields the
processed, resized logo or whatever exception was raised.  On any error the
`except` arm (lines 431-434) keeps the image unchanged and continues; with no
`logo_url` the image is likewise untouched (lines 435-436). -/
def compose_logo (qr_image : Img) (logo_url : Option String)
    (attempt : String → Except String Img) (x : Nat) (y : Nat) : Img :=
  match logo_url with
  | none => qr_image
  | some url =>
    match attempt url with
    | .error _ => qr_image
    | .ok logo => Img.paste qr_image logo x y logo

/-! ## Finder-pattern overdraw — generate_vcard_qr, lines 350-383.  The
rendered raster is modelled pointwise as a function from pixel coordinates to
RGB color; `ImageDraw.rectangle([x0,y0,x1,y1], fill)` paints the closed box
`[x0,x1] × [y0,y1]` (PIL rectangles include both corners). -/

abbrev Color := Nat × Nat × Nat

abbrev RasterImage := Nat → Nat → Color

/-- `draw.rectangle([x0, y0, x1, y1], fill = c)` over a raster. -/
def fillRect (img : RasterImage) (x0 y0 x1 y1 : Nat) (c : Color) : RasterImage :=
  fun px py => if x0 ≤ px ∧ px ≤ x1 ∧ y0 ≤ py ∧ py ≤ y1 then c else img px py

/-- The per-position body of the eye loop (lines 365-383): outer 7×7 box of
`eye`, inner box inset by `box_size` of `bg`, center box inset by
`2 * box_size` of `eye`, drawn in that order at zone origin `(x, y)`. -/
def draw_finder (img : RasterImage) (x y box_size : Nat) (eye bg : Color) : RasterImage :=
  let eye_size := 7 * box_size
  let i1 := fillRect img x y (x + eye_size - 1) (y + eye_size - 1) eye
  let i2 := fillRect i1 (x + box_size) (y + box_size)
    (x + eye_size - box_size - 1) (y + eye_size - box_size - 1) bg
  fillRect i2 (x + 2 * box_size) (y + 2 * box_size)
    (x + eye_size - 2 * box_size - 1) (y + eye_size - 2 * box_size - 1) eye

/-- The eye-drawing pass of `generate_vcard_qr` (lines 350-383): the three
zones at top-left, bottom-left and top-right (the source's `eye_positions`
order, lines 359-363), each overdrawn by `draw_finder`. -/
def draw_eyes (img : RasterImage) (qr_width qr_height border box_size : Nat)
    (eye bg : Color) : RasterImage :=
  let border_size := border * box_size
  let eye_size := 7 * box_size
  let i1 := draw_finder img border_size border_size box_size eye bg
  let i2 := draw_finder i1 border_size (qr_height - border_size - eye_size) box_size eye bg
  draw_finder i2 (qr_width - border_size - eye_size) border_size box_size eye bg

/-- Modelled from the spec: the nested-block description of a finder zone —
an outer 7×7-module block of `eye`, an inset 5×5 block of `bg`, and a
centered 3×3 block of `eye`, at offset `(dx, dy)` inside the zone. -/
def spec_eye_pixel (box_size dx dy : Nat) (eye bg : Color) : Color :=
  if 2 * box_size ≤ dx ∧ dx < 5 * box_size ∧ 2 * box_size ≤ dy ∧ dy < 5 * box_size then eye
  else if box_size ≤ dx ∧ dx < 6 * box_size ∧ box_size ≤ dy ∧ dy < 6 * box_size then bg
  else eye

/-! ## Design-option validation — shared/models.py, QRDesignOptions
(lines 17-49).  pydantic runs the `Field` constraints and the `@validator`
functions at model construction, i.e. before any QR work; the model is
rejected iff any of them fails, and `pattern_style` is stored lowercased
(line 36). -/

structure QRDesignOptionsIn where
  box_size : Int := 10
  border : Int := 4
  foreground_color : String := "#000000"
  background_color : String := "#FFFFFF"
  eye_color : String := "#ff4d26"
  module_color : String := "#0f50b5"
  pattern_style : String := "dots"
  error_correction : String := "Q"
  logo_url : Option String := none
  /-- `logo_size` in exact hundredths: the float default `0.23` is `23`, and
  the pydantic bound `0 < x < 1` becomes `0 < x < 100`. -/
  logo_size : Option Int := some 23
  logo_background : Option Bool := some true
  logo_round : Option Bool := some true
  deriving DecidableEq, Repr

/-- A hexadecimal digit, as matched by the character class `[0-9A-Fa-f]`. -/
def is_hex_digit (c : Char) : Bool :=
  c.isDigit || ('A' ≤ c && c ≤ 'F') || ('a' ≤ c && c ≤ 'f')

/-- The color validator's regex `^#[0-9A-Fa-f]{6}$` (models.py line 47): a
leading `#` followed by exactly six hex digits. -/
def color_format_ok (s : String) : Bool :=
  s.length = 7 && starts_with s "#" && (s.data.drop 1).all is_hex_digit

/-- Modelled from the spec: the claim's color pattern `^#?[0-9A-Fa-f]{6}$`,
with the leading `#` optional. -/
def spec_color_ok (s : String) : Bool :=
  color_format_ok s || (s.length = 6 && s.data.all is_hex_digit)

/-- The `pattern_style` whitelist (models.py line 33), checked against
`v.lower()`. -/
def valid_patterns : List String :=
  ["square", "rounded", "dots", "gapped", "vertical", "horizontal"]

/-- `QRDesignOptions` construction (models.py lines 17-49): `Field`
constraints `box_size > 0`, `border ≥ 0`, `0 < logo_size < 1`, then the three
validators — pattern style (lowercased) in the whitelist, error correction in
`{L, M, Q, H}`, and each of the four colors matching `^#[0-9A-Fa-f]{6}$`.
Success stores `pattern_style` lowercased. -/
def validate_design (d : QRDesignOptionsIn) : Except String QRDesignOptionsIn :=
  if ¬ (0 < d.box_size) then .error "Box size must be positive"
  else if ¬ (0 ≤ d.border) then .error "Border must be non-negative"
  else if (match d.logo_size with
           | none => false
           | some q => decide (¬ (0 < q ∧ q < 100))) then .error "Logo size out of range"
  else if ¬ (valid_patterns.contains (str_toLower d.pattern_style)) then
    .error "Invalid pattern style"
  else if ¬ (["L", "M", "Q", "H"].contains d.error_correction) then
    .error "Error correction must be one of: L, M, Q, H"
  else if ¬ (color_format_ok d.foreground_color) then .error "Colors must be in hex format"
  else if ¬ (color_format_ok d.background_color) then .error "Colors must be in hex format"
  else if ¬ (color_format_ok d.eye_color) then .error "Colors must be in hex format"
  else if ¬ (color_format_ok d.module_color) then .error "Colors must be in hex format"
  else .ok { d with pattern_style := str_toLower d.pattern_style }

/-! ## Module drawer selection — qr_utils.get_module_drawer (lines 67-99). -/

/-- The RGB-tuple check `validate_color` (lines 21-27): a 3-tuple of ints
each in `[0, 255]` (tuple shape and intness are carried by the type). -/
def validate_color (c : Int × Int × Int) : Bool :=
  0 ≤ c.1 && c.1 ≤ 255 && 0 ≤ c.2.1 && c.2.1 ≤ 255 && 0 ≤ c.2.2 && c.2.2 ≤ 255

/-- The drawer returned by `get_module_drawer`, carrying the color written
into its `_img` and, for the circle drawer, its radius ratio in exact
hundredths (the float `0.9` is `90`). -/
inductive ModuleDrawer
  | squareD (color : Int × Int × Int)
  | roundedD (color : Int × Int × Int)
  | gappedD (color : Int × Int × Int)
  | circleD : Int → Int × Int × Int → ModuleDrawer
  deriving DecidableEq, Repr

/-- `get_module_drawer` (lines 67-99): reject an invalid color (line 70-71);
`style.lower() == 'dots'` yields a circle drawer with radius ratio 0.9
(lines 75-83); otherwise `style_map.get(style.lower(), SquareModuleDrawer())`
(lines 86-93) maps square/rounded/gapped to their drawers, maps vertical and
horizontal to the square drawer, and defaults any other key to the square
drawer. -/
def get_module_drawer (style : String) (color : Int × Int × Int) :
    Except String ModuleDrawer :=
  if ¬ validate_color color then .error "Invalid color value"
  else if str_toLower style = "dots" then .ok (.circleD 90 color)
  else .ok (match str_toLower style with
    | "square" => .squareD color
    | "rounded" => .roundedD color
    | "gapped" => .gappedD color
    | "vertical" => .squareD color
    | "horizontal" => .squareD color
    | _ => .squareD color)

/-! ## Theorems -/

/-- C1.  The claimed capacity-fallback ladder does not exist: at payload
length 2000 — which fits at level M but not at Q or H — a request at level H
fails with the library's overflow error, while the spec's ladder would
succeed with `used_ecc = M`. -/
theorem C1_no_fallback_counterexample :
    qr_make_fit 2000 ECC.H = Except.error QRErr.dataOverflow ∧
    byte_capacity_v40 ECC.Q < 2000 ∧ 2000 ≤ byte_capacity_v40 ECC.M ∧
    spec_adaptive_encode 2000 ECC.H = Except.ok ECC.M := by
  decide

/-- C1 (amended).  Matrix encoding attempts only the requested level: it
succeeds, reporting exactly the requested level, iff the payload fits at that
level at version 40, and otherwise fails with the overflow error — whereas
the spec's ladder would succeed exactly when the payload fits at level L. -/
theorem C1_requested_level_only (len : Nat) (ecc : ECC) :
    ((qr_make_fit len ecc = Except.ok ecc) ↔ len ≤ byte_capacity_v40 ecc) ∧
    (qr_make_fit len ecc = Except.ok ecc ∨
      qr_make_fit len ecc = Except.error QRErr.dataOverflow) ∧
    ((spec_adaptive_encode len ecc).isOk ↔ len ≤ byte_capacity_v40 ECC.L) := by
  refine ⟨?_, ?_, ?_⟩
  · unfold qr_make_fit
    split_ifs with h <;> simp [h]
  · unfold qr_make_fit
    split_ifs <;> simp
  · cases ecc <;>
      simp only [spec_adaptive_encode, ladder_from, spec_try, byte_capacity_v40] <;>
      split_ifs <;> simp_all [Except.isOk, Except.toBool] <;> omega

/-- C2.  The payload encoder is not byte-deterministic across calls: the REV
line carries the call's UTC timestamp, so two calls on the identical (empty)
record at different seconds differ. -/
theorem C2_rev_counterexample :
    generate_vcard_content {} "20240101T000000Z" ≠
      generate_vcard_content {} "20240101T000001Z" := by
  decide

/-- C2 (amended).  The encoder is deterministic up to the clock: two calls on
the same record agree on every line except the REV timestamp line — the line
lists share one body and differ only in `REV:`. -/
theorem C2_deterministic_up_to_rev (r : ContactRecord) (t₁ t₂ : String)
    (l₁ l₂ : List String)
    (h₁ : vcard_lines r t₁ = Except.ok l₁) (h₂ : vcard_lines r t₂ = Except.ok l₂) :
    ∃ body, l₁ = body ++ ["REV:" ++ t₁, "END:VCARD"] ∧
      l₂ = body ++ ["REV:" ++ t₂, "END:VCARD"] := by
  unfold vcard_lines at h₁ h₂
  cases hb : vcard_body r with
  | error e => rw [hb] at h₁; simp [Except.map] at h₁
  | ok body =>
    rw [hb] at h₁ h₂
    simp only [Except.map, Except.ok.injEq] at h₁ h₂
    exact ⟨body, h₁.symm, h₂.symm⟩

/-- C2 witness: the amended statement at the empty record and two distinct
timestamps. -/
theorem C2_deterministic_up_to_rev_witness :
    ∃ body, ["BEGIN:VCARD", "VERSION:3.0", "N:;;;;", "FN: ", "REV:A", "END:VCARD"] =
        body ++ ["REV:" ++ "A", "END:VCARD"] ∧
      ["BEGIN:VCARD", "VERSION:3.0", "N:;;;;", "FN: ", "REV:B", "END:VCARD"] =
        body ++ ["REV:" ++ "B", "END:VCARD"] :=
  C2_deterministic_up_to_rev {} "A" "B"
    ["BEGIN:VCARD", "VERSION:3.0", "N:;;;;", "FN: ", "REV:A", "END:VCARD"]
    ["BEGIN:VCARD", "VERSION:3.0", "N:;;;;", "FN: ", "REV:B", "END:VCARD"]
    (by decide) (by decide)

/-- C3.  Empty names are not rejected: a record with an empty `first_name`
encodes successfully (no `EncodingError` exists in the encoder), emitting the
N and FN lines with empty components. -/
theorem C3_empty_name_counterexample :
    generate_vcard_content { first_name := "", last_name := "Doe" } "20240101T000000Z" =
      Except.ok
        "BEGIN:VCARD\r\nVERSION:3.0\r\nN:Doe;;;;\r\nFN: Doe\r\nREV:20240101T000000Z\r\nEND:VCARD" := by
  decide

/-- C3 (amended).  The encoder never validates names: whenever both phone
fields are absent it succeeds on every record, empty names included, and
every successful encoding opens with the four header lines, the N and FN
lines built from `last_name`/`first_name` as they are. -/
theorem C3_names_never_validated (r : ContactRecord) (t : String) :
    (r.mobile_number = "" → r.work_number = "" → ∃ l, vcard_lines r t = Except.ok l) ∧
    (∀ l, vcard_lines r t = Except.ok l →
      l.take 4 = ["BEGIN:VCARD", "VERSION:3.0",
        "N:" ++ r.last_name ++ ";" ++ r.first_name ++ ";;;",
        "FN:" ++ r.first_name ++ " " ++ r.last_name]) := by
  constructor
  · intro hm hw
    unfold vcard_lines vcard_body vcard_optional_lines phone_line
    simp [hm, hw, Except.map]
  · intro l hl
    unfold vcard_lines vcard_body at hl
    cases ho : vcard_optional_lines r with
    | error e => rw [ho] at hl; simp [Except.map] at hl
    | ok rest =>
      rw [ho] at hl
      simp only [Except.map, Except.ok.injEq] at hl
      subst hl
      rfl

/-- C3 witness: the amended statement at a record with both names empty. -/
theorem C3_names_never_validated_witness :
    ∃ l, vcard_lines ({} : ContactRecord) "T" = Except.ok l :=
  (C3_names_never_validated {} "T").1 rfl rfl

/-- C4.  With both flags unset the logo is NOT composited unmasked and
without a white background: the result still carries the white canvas with
the blurred circular alpha mask, so it differs from the plainly converted
logo. -/
theorem C4_flags_ignored_counterexample :
    process_logo "logo.png" false false ≠
      Img.convert "RGBA" (Img.opened "logo.png") ∧
    process_logo "logo.png" false false =
      Img.paste
        (Img.putalpha (Img.new "RGBA" (Size.imageOf "logo.png") [255, 255, 255, 255])
          (Img.gaussianBlur 1
            (Img.ellipseFilled (Img.new "L" (Size.imageOf "logo.png") [0]) 255)))
        (Img.convert "RGBA" (Img.opened "logo.png")) 0 0
        (Img.convert "RGBA" (Img.opened "logo.png")) := by
  decide

/-- C4 (amended).  `process_logo` ignores `logo_round` and `logo_background`
entirely: every flag combination yields the same image — the logo pasted onto
a white canvas whose alpha channel is the Gaussian-blurred circular mask. -/
theorem C4_process_logo_flag_independent (p : String) (a r a' r' : Bool) :
    process_logo p a r = process_logo p a' r' ∧
    process_logo p a r =
      Img.paste
        (Img.putalpha (Img.new "RGBA" (Size.imageOf p) [255, 255, 255, 255])
          (Img.gaussianBlur 1 (Img.ellipseFilled (Img.new "L" (Size.imageOf p) [0]) 255)))
        (Img.convert "RGBA" (Img.opened p)) 0 0 (Img.convert "RGBA" (Img.opened p)) :=
  ⟨rfl, rfl⟩

/-- C5.  The PHOTO line inlines a base64 data URI verbatim:
`process_profile_photo` passes its input through unchanged in both branches,
so a base64 `data:image` value ends up inside the payload, contradicting the
code's own log message about converting it to a URL. -/
theorem C5_base64_inlined :
    process_profile_photo "data:image/png;base64,iVBORw0KGgoAAA" =
      ("URL", "data:image/png;base64,iVBORw0KGgoAAA") ∧
    vcard_lines
        { first_name := "John", last_name := "Doe",
          profile_picture := "data:image/png;base64,iVBORw0KGgoAAA" }
        "20240101T000000Z" =
      Except.ok ["BEGIN:VCARD", "VERSION:3.0", "N:Doe;John;;;", "FN:John Doe",
        "PHOTO;VALUE=URI:data:image/png;base64,iVBORw0KGgoAAA",
        "REV:20240101T000000Z", "END:VCARD"] := by
  decide

/-- C6.  Phone normalization does not fail on the empty input even though its
digit count 0 lies outside `[11,15]`: the empty string is returned unchanged,
without the `+` prefix. -/
theorem C6_empty_input_counterexample :
    format_phone_number "" = Except.ok "" ∧ (phone_digits "").length = 0 := by
  decide

/-- C6 (amended).  For every non-empty input, normalization strips non-digits
and a leading trunk zero, prefixes `91` to 10-digit numbers lacking it, fails
exactly when the resulting digit count lies outside `[11,15]`, and otherwise
returns the digits prefixed with `+`; the quoted examples behave as claimed;
only the empty string bypasses the rule, returning `""` unchanged. -/
theorem C6_phone_normalization :
    (∀ s, s ≠ "" →
      ((format_phone_number s = Except.error "Invalid phone number length" ↔
          (phone_digits s).length < 11 ∨ 15 < (phone_digits s).length) ∧
        (11 ≤ (phone_digits s).length → (phone_digits s).length ≤ 15 →
          format_phone_number s = Except.ok ("+" ++ phone_digits s)))) ∧
    format_phone_number "09876543210" = Except.ok "+919876543210" ∧
    format_phone_number "+919876543210" = Except.ok "+919876543210" ∧
    format_phone_number "123" = Except.error "Invalid phone number length" := by
  refine ⟨?_, by decide, by decide, by decide⟩
  intro s hs
  unfold format_phone_number
  rw [if_neg hs]
  constructor
  · split_ifs with h <;> simp <;> omega
  · intro h₁ h₂
    rw [if_neg (by omega)]

/-- C6 witness: the amended statement at the trunk-zero example input. -/
theorem C6_phone_normalization_witness :
    ("09876543210" : String) ≠ "" ∧
    ((format_phone_number "09876543210" = Except.error "Invalid phone number length" ↔
        (phone_digits "09876543210").length < 11 ∨ 15 < (phone_digits "09876543210").length) ∧
      (11 ≤ (phone_digits "09876543210").length → (phone_digits "09876543210").length ≤ 15 →
        format_phone_number "09876543210" = Except.ok ("+" ++ phone_digits "09876543210"))) :=
  ⟨by decide, C6_phone_normalization.1 "09876543210" (by decide)⟩

/-- A pixel strictly outside the 7×7-module square of a finder zone is left
untouched by that zone's three rectangle fills. -/
theorem draw_finder_outside (img : RasterImage) (X Y b : Nat) (hb : 1 ≤ b)
    (eye bg : Color)
    (px py : Nat) (h : px < X ∨ X + 7 * b ≤ px ∨ py < Y ∨ Y + 7 * b ≤ py) :
    draw_finder img X Y b eye bg px py = img px py := by
  unfold draw_finder fillRect
  split_ifs <;> first | rfl | omega

/-- Inside its 7×7-module square, a finder zone renders the nested-block
pattern, independently of the underlying image. -/
theorem draw_finder_at (img : RasterImage) (X Y b : Nat) (hb : 1 ≤ b)
    (eye bg : Color) (dx dy : Nat) (hdx : dx < 7 * b) (hdy : dy < 7 * b) :
    draw_finder img X Y b eye bg (X + dx) (Y + dy) = spec_eye_pixel b dx dy eye bg := by
  unfold draw_finder fillRect spec_eye_pixel
  split_ifs <;> first | rfl | omega

/-- C7.  For every base raster (that is, for every payload's module pattern)
and all valid parameters, each of the three finder zones — top-left,
top-right and bottom-left of the `(4·v+17+2·border)·box`-pixel canvas —
renders the nested outer/inner/center blocks of eye/background/eye color at
every offset inside the zone. -/
theorem C7_finder_pattern (base : RasterImage) (v border box : Nat)
    (eye bg : Color) (hv : 1 ≤ v) (hbox : 1 ≤ box)
    (dx dy : Nat) (hdx : dx < 7 * box) (hdy : dy < 7 * box) :
    (draw_eyes base ((4 * v + 17 + 2 * border) * box) ((4 * v + 17 + 2 * border) * box)
        border box eye bg (border * box + dx) (border * box + dy) =
      spec_eye_pixel box dx dy eye bg) ∧
    (draw_eyes base ((4 * v + 17 + 2 * border) * box) ((4 * v + 17 + 2 * border) * box)
        border box eye bg
        ((4 * v + 17 + 2 * border) * box - border * box - 7 * box + dx)
        (border * box + dy) =
      spec_eye_pixel box dx dy eye bg) ∧
    (draw_eyes base ((4 * v + 17 + 2 * border) * box) ((4 * v + 17 + 2 * border) * box)
        border box eye bg (border * box + dx)
        ((4 * v + 17 + 2 * border) * box - border * box - 7 * box + dy) =
      spec_eye_pixel box dx dy eye bg) := by
  simp only [draw_eyes]
  have hW : (4 * v + 17 + 2 * border) * box =
      border * box + (4 * v + 10) * box + (border * box + 7 * box) := by ring
  set P := border * box with hP
  set Q := (4 * v + 10) * box with hQ
  set R := (4 * v + 17 + 2 * border) * box with hR
  have hC : 14 * box ≤ Q := by
    rw [hQ]
    exact Nat.mul_le_mul_right box (by omega)
  have hsub : R - P - 7 * box = P + Q := by omega
  rw [hsub]
  refine ⟨?_, ?_, ?_⟩
  · rw [draw_finder_outside _ (P + Q) P box hbox eye bg (P + dx) (P + dy) (by omega)]
    rw [draw_finder_outside _ P (P + Q) box hbox eye bg (P + dx) (P + dy) (by omega)]
    exact draw_finder_at base P P box hbox eye bg dx dy hdx hdy
  · exact draw_finder_at _ (P + Q) P box hbox eye bg dx dy hdx hdy
  · rw [draw_finder_outside _ (P + Q) P box hbox eye bg (P + dx) (P + Q + dy) (by omega)]
    exact draw_finder_at _ P (P + Q) box hbox eye bg dx dy hdx hdy

/-- C7 witness: the invariant at version 1, border 4, box size 2, zone
offset (0,0), over an arbitrary constant base raster. -/
theorem C7_finder_pattern_witness :
    (1 : Nat) ≤ 1 ∧ (1 : Nat) ≤ 2 ∧ (0 : Nat) < 7 * 2 ∧
    ((draw_eyes (fun _ _ => (3, 3, 3)) ((4 * 1 + 17 + 2 * 4) * 2) ((4 * 1 + 17 + 2 * 4) * 2)
        4 2 (255, 0, 0) (9, 9, 9) (4 * 2 + 0) (4 * 2 + 0) =
      spec_eye_pixel 2 0 0 (255, 0, 0) (9, 9, 9)) ∧
    (draw_eyes (fun _ _ => (3, 3, 3)) ((4 * 1 + 17 + 2 * 4) * 2) ((4 * 1 + 17 + 2 * 4) * 2)
        4 2 (255, 0, 0) (9, 9, 9)
        ((4 * 1 + 17 + 2 * 4) * 2 - 4 * 2 - 7 * 2 + 0) (4 * 2 + 0) =
      spec_eye_pixel 2 0 0 (255, 0, 0) (9, 9, 9)) ∧
    (draw_eyes (fun _ _ => (3, 3, 3)) ((4 * 1 + 17 + 2 * 4) * 2) ((4 * 1 + 17 + 2 * 4) * 2)
        4 2 (255, 0, 0) (9, 9, 9) (4 * 2 + 0)
        ((4 * 1 + 17 + 2 * 4) * 2 - 4 * 2 - 7 * 2 + 0) =
      spec_eye_pixel 2 0 0 (255, 0, 0) (9, 9, 9))) :=
  ⟨by decide, by decide, by decide,
    C7_finder_pattern (fun _ _ => (3, 3, 3)) 1 4 2 (255, 0, 0) (9, 9, 9)
      (by decide) (by decide) 0 0 (by decide) (by decide)⟩

/-- C8.  Any failure raised while resolving, fetching, decoding or processing
the logo is absorbed: the pipeline returns the image it would have produced
with no `logo_url` at all, which is the untouched QR image. -/
theorem C8_logo_failure_nonfatal (img : Img) (url : String)
    (attempt : String → Except String Img) (e : String) (x y : Nat)
    (h : attempt url = Except.error e) :
    compose_logo img (some url) attempt x y = compose_logo img none attempt x y ∧
    compose_logo img none attempt x y = img := by
  simp [compose_logo, h]

/-- C8 witness: a network-failing fetch leaves a concrete image unchanged. -/
theorem C8_logo_failure_nonfatal_witness :
    compose_logo (Img.opened "qr.png") (some "http://logo.example/a.png")
        (fun _ => Except.error "connection refused") 10 10 =
      compose_logo (Img.opened "qr.png") none
        (fun _ => Except.error "connection refused") 10 10 ∧
    compose_logo (Img.opened "qr.png") none
        (fun _ => Except.error "connection refused") 10 10 = Img.opened "qr.png" :=
  C8_logo_failure_nonfatal (Img.opened "qr.png") "http://logo.example/a.png"
    (fun _ => Except.error "connection refused") "connection refused" 10 10 rfl

/-- C9.  The validator is stricter and looser than claimed: the color
`FF0000` matches the claim's `^#?[0-9A-Fa-f]{6}$` yet is rejected (the `#`
is mandatory), while the pattern style `vertical` — outside the claim's set
{square, rounded, dots, gapped} — is accepted. -/
theorem C9_validation_counterexample :
    spec_color_ok "FF0000" = true ∧
    (validate_design { module_color := "FF0000" }).isOk = false ∧
    (validate_design { pattern_style := "vertical" }).isOk = true := by
  decide

set_option maxHeartbeats 1600000 in
/-- C9 (amended).  Design validation accepts exactly: positive box size,
non-negative border, logo size (when set) strictly between 0 and 1, pattern
style whose lowercase form is one of square, rounded, dots, gapped, vertical
or horizontal, error correction in {L, M, Q, H}, and all four colors
matching `^#[0-9A-Fa-f]{6}$` with the leading `#` mandatory; this runs at
model construction, before any encoding work. -/
theorem C9_design_validation (d : QRDesignOptionsIn) :
    (validate_design d).isOk = true ↔
      (0 < d.box_size ∧ 0 ≤ d.border ∧
        (match d.logo_size with
         | none => true
         | some q => decide (0 < q ∧ q < 100)) = true ∧
        valid_patterns.contains (str_toLower d.pattern_style) = true ∧
        ["L", "M", "Q", "H"].contains d.error_correction = true ∧
        color_format_ok d.foreground_color = true ∧
        color_format_ok d.background_color = true ∧
        color_format_ok d.eye_color = true ∧
        color_format_ok d.module_color = true) := by
  cases hq : d.logo_size <;>
    unfold validate_design <;> rw [hq] <;>
    split_ifs <;>
    simp_all only [Except.isOk, Except.toBool, decide_eq_true_eq, not_true, not_false_iff,
      not_not, not_lt, not_le, true_and, and_true, iff_true, iff_false, false_iff, true_iff,
      not_and, Bool.not_eq_true, Bool.false_eq_true] <;>
    first
    | omega
    | tauto

/-- C10.  Style matching is case-insensitive, so a style string other than
the four lowercase names does not necessarily fall back to the square
drawer: `DOTS` selects the circle drawer with radius ratio 0.9. -/
theorem C10_case_counterexample :
    get_module_drawer "DOTS" (0, 0, 0) =
      Except.ok (ModuleDrawer.circleD 90 (0, 0, 0)) ∧
    ModuleDrawer.circleD 90 (0, 0, 0) ≠ ModuleDrawer.squareD (0, 0, 0) := by
  decide

/-- C10 (amended).  For every style string and valid color the selector never
raises and dispatches on the lowercased style: `dots` yields the circle
drawer at radius ratio 0.9, `rounded` and `gapped` their drawers, and
everything else — `square`, `vertical`, `horizontal` or any unrecognized
value — the square drawer. -/
theorem C10_module_drawer (style : String) (color : Int × Int × Int)
    (h : validate_color color = true) :
    get_module_drawer style color =
      Except.ok
        (if str_toLower style = "dots" then ModuleDrawer.circleD 90 color
         else if str_toLower style = "rounded" then ModuleDrawer.roundedD color
         else if str_toLower style = "gapped" then ModuleDrawer.gappedD color
         else ModuleDrawer.squareD color) := by
  unfold get_module_drawer
  rw [if_neg (by simp [h])]
  split_ifs with h1 h2 h3
  · rfl
  · rw [h2]; rfl
  · rw [h3]; rfl
  · split <;> simp_all

/-- C10 witness: the amended dispatch at a mixed-case rounded style. -/
theorem C10_module_drawer_witness :
    validate_color (1, 2, 3) = true ∧
    get_module_drawer "Rounded" (1, 2, 3) =
      Except.ok
        (if str_toLower "Rounded" = "dots" then ModuleDrawer.circleD 90 (1, 2, 3)
         else if str_toLower "Rounded" = "rounded" then ModuleDrawer.roundedD (1, 2, 3)
         else if str_toLower "Rounded" = "gapped" then ModuleDrawer.gappedD (1, 2, 3)
         else ModuleDrawer.squareD (1, 2, 3)) :=
  ⟨by decide, C10_module_drawer "Rounded" (1, 2, 3) (by decide)⟩

end QRService
